import Mathlib

/-!
Shallow embedding of the telemetry pipeline of `go-observability-demo`
(an instrumented Go order service using OpenTelemetry), together with
proofs about its configuration, logging correlation, shutdown ordering,
sampling, and the order-handler's metric/span behaviour.

Sources embedded:
* `internal/observability/tracing.go` — `InitObservability`,
  `newTracerProvider`, `getEnv`, the shutdown closure;
* `internal/observability/logger.go` — `NewLogger`, `LogWithTrace`;
* `internal/service/order_service.go` — `CreateOrderHandler`,
  `validateRequest`, `processOrder`, `checkInventory`, `processPayment`,
  `reserveInventory`.

Machine floats of the Go source (`samplingRate float64`, `Amount float64`)
are modelled as `Rat`; the rates involved (1.0, 0.1) and all JSON-decodable
amounts are ordinary rationals and the comparisons in the source are plain
order comparisons, so no rounding behaviour is load-bearing.
-/

namespace ObsDemo

/-! ## Configuration: `getEnv` and the tracer provider (tracing.go) -/

/-- `getEnv` from tracing.go: returns the environment variable's value when
it is non-empty, the default otherwise.  An unset Go environment variable
reads as `""`, so the environment is modelled as the raw string value. -/
def getEnv (value defaultValue : String) : String :=
  if value ≠ "" then value else defaultValue

/-- The statically configured parts of the `sdktrace.TracerProvider` built by
`newTracerProvider`: the batcher options and the sampler rate. -/
structure TracerProviderConfig where
  maxExportBatchSize : Nat
  batchTimeoutMs : Nat
  maxQueueSize : Nat
  samplerRate : Rat
  deriving Repr, DecidableEq

/-- `newTracerProvider` from tracing.go, as a function of the `ENVIRONMENT`
variable's raw value: sampling rate 1.0 by default, 0.1 when the environment
resolves to "production"; batcher configured with max export batch size 512,
batch timeout 5 s, max queue size 2048. -/
def newTracerProvider (environment : String) : TracerProviderConfig :=
  let samplingRate : Rat := if getEnv environment "development" = "production" then 1/10 else 1
  { maxExportBatchSize := 512
    batchTimeoutMs := 5000
    maxQueueSize := 2048
    samplerRate := samplingRate }

/-- Modelled from the spec: the batching worker loop that consumes the span
queue lives in the OpenTelemetry SDK's batch span processor, not in this
repository's sources; per the spec's Batch Export Pipeline algorithm the
worker flushes exactly when the in-progress batch reaches the configured
maximum size or the batch timeout elapses since the first item of the
current batch arrived, whichever comes first. -/
def flushTriggered (cfg : TracerProviderConfig) (batchLen elapsedMs : Nat) : Bool :=
  cfg.maxExportBatchSize ≤ batchLen || cfg.batchTimeoutMs ≤ elapsedMs

/-! ## Sampler (spec §4.2; implementation is `sdktrace.TraceIDRatioBased`) -/

/-- Modelled from the spec: `Sampler.decide` — the sampler implementation
(`sdktrace.TraceIDRatioBased`) lives in the OpenTelemetry SDK, not in this
repository's sources.  Per the spec it maps the 128-bit `trace_id` to a
uniform value in `[0,1)` via a stable hash of its low 64 bits and accepts
iff that value is below the configured rate. -/
def traceIDToUnit (traceID : Nat) : Rat :=
  (((traceID % 2 ^ 64) / 2 : Nat) : Rat) / ((2 ^ 63 : Nat) : Rat)

/-- Modelled from the spec: the sampling decision for a trace id at a
configured rate — accept iff the hashed unit value is below the rate. -/
def samplerDecide (rate : Rat) (traceID : Nat) : Bool :=
  decide (traceIDToUnit traceID < rate)

/-! ## Shutdown closure returned by `InitObservability` (tracing.go) -/

/-- The externally observable calls the shutdown closure can make. -/
inductive ShutdownEvent where
  | tracerShutdown
  | meterShutdown
  deriving Repr, DecidableEq

/-- The shutdown closure returned by `InitObservability`, as a function of
the outcomes of the two provider `Shutdown` calls: it calls
`tracerProvider.Shutdown` and, on error, returns at once with a wrapped
error; only otherwise does it call `meterProvider.Shutdown`, again wrapping
any error.  The first component lists the `Shutdown` calls performed in
order; the second is the closure's returned error. -/
def shutdown (tracerErr meterErr : Option String) :
    List ShutdownEvent × Option String :=
  match tracerErr with
  | some e => ([.tracerShutdown], some ("failed to shutdown tracer provider: " ++ e))
  | none =>
    match meterErr with
    | some e => ([.tracerShutdown, .meterShutdown],
                 some ("failed to shutdown meter provider: " ++ e))
    | none => ([.tracerShutdown, .meterShutdown], none)

/-! ## Log correlator (logger.go) -/

/-- A W3C span context as carried in a Go `context.Context`: 128-bit trace
id, 64-bit span id, and the sampled trace flag.  `trace.SpanFromContext` on
a context holding no span yields the zero span context. -/
structure SpanContext where
  traceID : Nat
  spanID : Nat
  sampled : Bool
  deriving Repr, DecidableEq

/-- `SpanContext.IsValid` from the OpenTelemetry trace API, as used by
`LogWithTrace`: valid iff the trace id and the span id are both non-zero.
(The sampled flag plays no part.) -/
def SpanContext.isValid (sc : SpanContext) : Bool :=
  sc.traceID ≠ 0 && sc.spanID ≠ 0

/-- `trace.SpanFromContext`: an absent span yields the zero span context. -/
def spanContextOf (ctx : Option SpanContext) : SpanContext :=
  match ctx with
  | none => ⟨0, 0, false⟩
  | some sc => sc

/-- The `trace_id`/`span_id` fields `LogWithTrace` appends. -/
def traceFields (sc : SpanContext) : List (String × String) :=
  [("trace_id", toString sc.traceID), ("span_id", toString sc.spanID)]

/-- `LogWithTrace` from logger.go: reads the span from the context and, when
its span context `IsValid`, appends the `trace_id` and `span_id` fields to
the record's args before emitting. -/
def LogWithTrace (ctx : Option SpanContext) (args : List (String × String)) :
    List (String × String) :=
  let sc := spanContextOf ctx
  if sc.isValid then args ++ traceFields sc else args

/-! ## Logger construction (logger.go) -/

/-- `slog` levels used by the service. -/
inductive LogLevel where
  | debug
  | info
  | warn
  | error
  deriving Repr, DecidableEq

/-- Numeric severity mirroring `log/slog` (Debug -4, Info 0, Warn 4, Error 8),
shifted to `Nat` (0,4,8,12) — only the order matters. -/
def levelNum : LogLevel → Nat
  | .debug => 0
  | .info => 4
  | .warn => 8
  | .error => 12

/-- `NewLogger` from logger.go, as a function of the raw `LOG_LEVEL`
environment value: threshold Debug when the value is "debug", Info in every
other case. -/
def NewLoggerLevel (logLevelEnv : String) : LogLevel :=
  if logLevelEnv = "debug" then .debug else .info

/-- The `slog.JSONHandler` emission rule for a configured minimum level:
a record is emitted iff its level is at or above the threshold. -/
def shouldEmit (threshold recordLevel : LogLevel) : Bool :=
  levelNum threshold ≤ levelNum recordLevel

/-! ## Order service (order_service.go) -/

/-- `CreateOrderRequest`: the decoded JSON body.  `Quantity` is a Go `int`
(may be negative), `Amount` a `float64` modelled as `Rat`. -/
structure CreateOrderRequest where
  UserID : String
  ProductID : String
  Quantity : Int
  Amount : Rat
  deriving Repr, DecidableEq

/-- `validateRequest` from order_service.go: first failing check wins,
`none` when all pass. -/
def validateRequest (req : CreateOrderRequest) : Option String :=
  if req.UserID = "" then some "user_id is required"
  else if req.ProductID = "" then some "product_id is required"
  else if req.Quantity ≤ 0 then some "quantity must be positive"
  else if req.Amount ≤ 0 then some "amount must be positive"
  else none

/-- Span statuses the service sets (`codes.Ok` / `codes.Error`). -/
inductive Status where
  | ok
  | error
  deriving Repr, DecidableEq

/-- The externally observable actions a request execution performs, in
program order: span operations, metric-instrument updates, log emissions,
HTTP response writes, and the call into `processOrder`. -/
inductive Event where
  | startSpan (span : String)
  | endSpan (span : String)
  | setStatus (span : String) (st : Status) (msg : String)
  | recordError (span : String) (msg : String)
  | addEvent (span : String) (name : String)
  | setAttributes (span : String)
  | counterAdd (instrument : String) (value : Rat) (attrs : List (String × String))
  | histogramRecord (instrument : String) (attrs : List (String × String))
  | logEmit (level : LogLevel) (msg : String)
  | httpWrite (status : Nat)
  | callProcessOrder
  deriving Repr, DecidableEq

/-- The random branch outcomes of the simulated downstream calls:
`rand.Float64() < 0.1` in `checkInventory`, `rand.Intn(10) == 0` (slow
path) and `rand.Float64() < 0.05` (declined) in `processPayment`. -/
structure SimOutcomes where
  invFail : Bool
  paySlow : Bool
  payFail : Bool
  deriving Repr, DecidableEq

/-- `checkInventory`: opens a span, sets attributes, debug-logs, counts the
inventory request, then either records/flags the simulated failure or adds
the `inventory_available` event.  Returns its events and error. -/
def checkInventory (o : SimOutcomes) : List Event × Option String :=
  let pre : List Event :=
    [.startSpan "CheckInventory", .setAttributes "CheckInventory",
     .logEmit .debug "checking inventory",
     .counterAdd "inventory.requests" 1 []]
  if o.invFail then
    (pre ++ [.recordError "CheckInventory" "insufficient inventory",
             .setStatus "CheckInventory" .error "insufficient inventory",
             .endSpan "CheckInventory"],
     some "insufficient inventory")
  else
    (pre ++ [.addEvent "CheckInventory" "inventory_available",
             .endSpan "CheckInventory"],
     none)

/-- `processPayment`: opens a span, sets attributes, debug-logs, adds the
gateway event, optionally takes the slow path (extra event + warn log),
then either records/flags the simulated decline or completes with status
Ok. -/
def processPayment (o : SimOutcomes) : List Event × Option String :=
  let pre : List Event :=
    [.startSpan "ProcessPayment", .setAttributes "ProcessPayment",
     .logEmit .debug "processing payment",
     .addEvent "ProcessPayment" "payment_gateway_called"]
  let slowPart : List Event :=
    if o.paySlow then
      [.addEvent "ProcessPayment" "payment_slow_path",
       .logEmit .warn "payment processing slow"]
    else []
  if o.payFail then
    (pre ++ slowPart ++
       [.recordError "ProcessPayment" "payment declined",
        .setStatus "ProcessPayment" .error "payment declined",
        .endSpan "ProcessPayment"],
     some "payment declined")
  else
    (pre ++ slowPart ++
       [.addEvent "ProcessPayment" "payment_completed",
        .setStatus "ProcessPayment" .ok "payment successful",
        .endSpan "ProcessPayment"],
     none)

/-- `reserveInventory`: opens a span, sets attributes, debug-logs, sets the
db attributes, adds the `inventory_reserved` event; always succeeds. -/
def reserveInventory : List Event × Option String :=
  ([.startSpan "ReserveInventory", .setAttributes "ReserveInventory",
    .logEmit .debug "reserving inventory",
    .setAttributes "ReserveInventory",
    .addEvent "ReserveInventory" "inventory_reserved",
    .endSpan "ReserveInventory"],
   none)

/-- `processOrder`: inventory check, then payment, then reservation; the
first failing step aborts with a wrapped error, otherwise an order id is
produced (time-based in the source, opaque here). -/
def processOrder (o : SimOutcomes) : List Event × Except String String :=
  let r1 := checkInventory o
  match r1.2 with
  | some err => (r1.1, .error ("inventory check failed: " ++ err))
  | none =>
    let r2 := processPayment o
    match r2.2 with
    | some err => (r1.1 ++ r2.1, .error ("payment failed: " ++ err))
    | none =>
      (r1.1 ++ r2.1 ++ reserveInventory.1, .ok "order-id")

/-- `CreateOrderHandler`: the full request execution as its ordered event
list.  `decodeOk` is the outcome of decoding the JSON body; on decode
failure `req` is irrelevant.  Mirrors the source's control flow: decode
error → 400 + `invalid_request`; validation error → 400 +
`validation_error`; `processOrder` error → 500 + `processing_error`;
success → duration histogram, order counter, payment amount, status Ok,
201.  The deferred `span.End()` lands at each exit. -/
def CreateOrderHandler (decodeOk : Bool) (req : CreateOrderRequest)
    (o : SimOutcomes) : List Event :=
  let pre : List Event :=
    [.startSpan "CreateOrder", .logEmit .info "order creation started"]
  if !decodeOk then
    pre ++ [.recordError "CreateOrder" "decode error",
            .setStatus "CreateOrder" .error "invalid request body",
            .logEmit .error "failed to parse request",
            .httpWrite 400,
            .counterAdd "errors.total" 1 [("error.type", "invalid_request")],
            .endSpan "CreateOrder"]
  else
    match validateRequest req with
    | some verr =>
      pre ++ [.recordError "CreateOrder" verr,
              .setStatus "CreateOrder" .error "validation failed",
              .logEmit .error "request validation failed",
              .httpWrite 400,
              .counterAdd "errors.total" 1 [("error.type", "validation_error")],
              .endSpan "CreateOrder"]
    | none =>
      let r := processOrder o
      pre ++ [.setAttributes "CreateOrder", .callProcessOrder] ++ r.1 ++
        (match r.2 with
         | .error err =>
           [.recordError "CreateOrder" err,
            .setStatus "CreateOrder" .error err,
            .logEmit .error "order processing failed",
            .httpWrite 500,
            .counterAdd "errors.total" 1 [("error.type", "processing_error")],
            .endSpan "CreateOrder"]
         | .ok _ =>
           [.histogramRecord "orders.duration" [("status", "success")],
            .counterAdd "orders.created" 1 [("status", "success")],
            .counterAdd "payments.total_amount" req.Amount [],
            .setStatus "CreateOrder" .ok "order created successfully",
            .logEmit .info "order created successfully",
            .httpWrite 201,
            .endSpan "CreateOrder"])

/-! ## Extractors over event lists -/

/-- The HTTP status written by the execution (first write). -/
def httpStatus (es : List Event) : Option Nat :=
  es.findSome? fun e =>
    match e with
    | .httpWrite st => some st
    | _ => none

/-- Is the event an increment of `OrderCounter` with `status="success"`? -/
def isOrderSuccessInc (e : Event) : Bool :=
  match e with
  | .counterAdd "orders.created" _ attrs => attrs.contains ("status", "success")
  | _ => false

/-- Is the event an increment of `ErrorCounter`? -/
def isErrorInc (e : Event) : Bool :=
  match e with
  | .counterAdd "errors.total" _ _ => true
  | _ => false

/-- The `error.type` attribute values of the `ErrorCounter` increments
performed, in order. -/
def errorTypes (es : List Event) : List String :=
  es.filterMap fun e =>
    match e with
    | .counterAdd "errors.total" _ attrs =>
      (attrs.lookup "error.type")
    | _ => none

/-- Is the event a metric-instrument update (counter add or histogram
record)? -/
def isMetricEvent (e : Event) : Bool :=
  match e with
  | .counterAdd _ _ _ => true
  | .histogramRecord _ _ => true
  | _ => false

/-- The metric updates of an execution, in order. -/
def metricUpdates (es : List Event) : List Event :=
  es.filter isMetricEvent

/-- Does the event set status Ok on span `s`? -/
def setsOkOn (s : String) (e : Event) : Bool :=
  match e with
  | .setStatus s2 .ok _ => s2 = s
  | _ => false

/-- No span receives status Ok after it has received status Error. -/
def noOkAfterError : List Event → Bool
  | [] => true
  | .setStatus s .error _ :: rest =>
    rest.all (fun e => !setsOkOn s e) && noOkAfterError rest
  | _ :: rest => noOkAfterError rest

/-! ## Export pipeline view of a request (sampling vs metrics) -/

/-- One request execution as seen by the two telemetry pipelines: metrics
are always recorded; finished spans are handed to the span export queue iff
the trace was sampled (unsampled spans are discarded at `End`). -/
structure RunResult where
  metrics : List Event
  exportedSpans : List String
  deriving Repr, DecidableEq

/-- Runs `CreateOrderHandler` under a fixed trace-sampling decision and
collects each pipeline's intake. -/
def runRequest (decodeOk : Bool) (req : CreateOrderRequest)
    (o : SimOutcomes) (sampled : Bool) : RunResult :=
  let es := CreateOrderHandler decodeOk req o
  { metrics := metricUpdates es
    exportedSpans :=
      if sampled then
        es.filterMap fun e =>
          match e with
          | .endSpan s => some s
          | _ => none
      else [] }

/-! ## Theorems -/

/-- C1: the sampling rate is selected by the single `ENVIRONMENT`
configuration value — rate 0.10 when it is "production", rate 1.0 for every
other value including the unset default "development"; `newTracerProvider`
is the only place a rate is chosen, as a function of that value alone. -/
theorem sampler_rate_selected_by_environment (env : String) :
    (newTracerProvider env).samplerRate =
      if env = "production" then (1 : Rat)/10 else 1 := by
  simp only [newTracerProvider, getEnv]
  by_cases h : env = ""
  · subst h; simp
  · simp [h]

/-- C2 counterexample: a context carrying a valid but unsampled span context
(trace id 1, span id 1, sampled = false) still gets `trace_id`/`span_id`
appended by `LogWithTrace`, contradicting the claim that the record is
emitted unmodified unless the context is sampled. -/
theorem log_correlation_ignores_sampled_flag :
    (⟨1, 1, false⟩ : SpanContext).sampled = false ∧
    LogWithTrace (some ⟨1, 1, false⟩) [] ≠ [] := by
  refine ⟨rfl, ?_⟩
  simp [LogWithTrace, spanContextOf, SpanContext.isValid, traceFields]

/-- C2 amended: `LogWithTrace` appends the `trace_id`/`span_id` fields iff
the context carries a span context that is valid (non-zero trace id and
non-zero span id) — the sampled flag is not consulted. -/
theorem log_correlation_appends_iff_valid (ctx : Option SpanContext)
    (args : List (String × String)) :
    LogWithTrace ctx args ≠ args ↔
      ∃ sc, ctx = some sc ∧ sc.traceID ≠ 0 ∧ sc.spanID ≠ 0 := by
  cases ctx with
  | none => simp [LogWithTrace, spanContextOf, SpanContext.isValid]
  | some sc =>
    by_cases hv : sc.isValid
    · have hne : args ++ traceFields sc ≠ args := by
        intro h
        have := congrArg List.length h
        simp [traceFields] at this
      simp only [SpanContext.isValid, Bool.and_eq_true, decide_eq_true_eq] at hv
      simp [LogWithTrace, spanContextOf, SpanContext.isValid, hv.1, hv.2, hne]
    · simp only [SpanContext.isValid, Bool.and_eq_true, decide_eq_true_eq,
        not_and_or, Bool.not_eq_true] at hv
      rcases hv with hv | hv <;>
        simp_all [LogWithTrace, spanContextOf, SpanContext.isValid]

/-- C3: the span export pipeline is configured with a bounded queue of
capacity 2048, a maximum batch size of 512 and a batch timeout of 5 s
(5000 ms), and the (spec-modelled) worker flushes exactly when the batch
size reaches 512 or 5 s elapse since the first item of the current batch
arrived. -/
theorem span_batcher_configuration (env : String) (batchLen elapsedMs : Nat) :
    (newTracerProvider env).maxQueueSize = 2048 ∧
    (newTracerProvider env).maxExportBatchSize = 512 ∧
    (newTracerProvider env).batchTimeoutMs = 5000 ∧
    (flushTriggered (newTracerProvider env) batchLen elapsedMs = true ↔
      512 ≤ batchLen ∨ 5000 ≤ elapsedMs) := by
  refine ⟨rfl, rfl, rfl, ?_⟩
  simp [flushTriggered, newTracerProvider]

/-- C4 counterexample: when the tracer provider's `Shutdown` returns an
error, the shutdown closure returns early and never invokes the meter
provider's `Shutdown` — so buffered metrics are not flushed in that case,
contradicting the claim. -/
theorem shutdown_skips_meter_on_tracer_error :
    ShutdownEvent.meterShutdown ∉ (shutdown (some "exporter unreachable") none).1 := by
  decide

/-- C4 amended: every execution of the shutdown closure invokes the tracer
provider's `Shutdown`; the meter provider's `Shutdown` is invoked iff the
tracer provider's `Shutdown` returned no error. -/
theorem shutdown_calls_meter_iff_tracer_succeeds
    (tracerErr meterErr : Option String) :
    ShutdownEvent.tracerShutdown ∈ (shutdown tracerErr meterErr).1 ∧
    (ShutdownEvent.meterShutdown ∈ (shutdown tracerErr meterErr).1 ↔
      tracerErr = none) := by
  cases tracerErr <;> cases meterErr <;> simp [shutdown]

/-- C5: the sampling decision is deterministic — for a fixed rate and trace
id, two evaluations of the sampler's decide function return the same
boolean. -/
theorem sampler_decide_deterministic (rate : Rat) (traceID : Nat)
    (b₁ b₂ : Bool)
    (h₁ : samplerDecide rate traceID = b₁)
    (h₂ : samplerDecide rate traceID = b₂) : b₁ = b₂ := by
  rw [← h₁, ← h₂]

/-- C5 witness: both evaluations at rate 1 on trace id 0 yield `true`. -/
theorem sampler_decide_deterministic_witness : true = true :=
  sampler_decide_deterministic 1 0 true true
    (by simp [samplerDecide, traceIDToUnit])
    (by simp [samplerDecide, traceIDToUnit])

/-- C7 counterexample: configuring the log level "warn" yields a logger
whose threshold is Info, not Warn — the constructed threshold does not
equal the configured level for every value in {Debug, Info, Warn, Error}. -/
theorem logger_level_warn_maps_to_info :
    NewLoggerLevel "warn" = LogLevel.info ∧
    NewLoggerLevel "warn" ≠ LogLevel.warn := by
  constructor
  · rfl
  · intro h
    simp [NewLoggerLevel] at h

/-- C7 amended: the constructed logger's threshold is Debug when `LOG_LEVEL`
is "debug" and Info for every other value (including "warn" and "error");
a record is emitted iff its level is at or above the threshold. -/
theorem logger_threshold_debug_or_info :
    NewLoggerLevel "debug" = LogLevel.debug ∧
    (∀ s : String, s ≠ "debug" → NewLoggerLevel s = LogLevel.info) ∧
    (∀ thr l : LogLevel, shouldEmit thr l = true ↔ levelNum thr ≤ levelNum l) := by
  refine ⟨rfl, ?_, ?_⟩
  · intro s hs
    simp [NewLoggerLevel, hs]
  · intro thr l
    simp [shouldEmit]

/-- C7 amended witness: at the concrete configured values "error" (≠
"debug") and thresholds Info/Warn the theorem's conclusions evaluate. -/
theorem logger_threshold_debug_or_info_witness :
    NewLoggerLevel "error" = LogLevel.info :=
  logger_threshold_debug_or_info.2.1 "error" (by decide)

/-- C6: metric recording is independent of the trace-sampling decision —
for any request execution, the metric-instrument updates are identical
under any two sampling decisions, while the span pipeline's intake does
depend on the decision (spans are exported only when sampled). -/
theorem metrics_independent_of_sampling (decodeOk : Bool)
    (req : CreateOrderRequest) (o : SimOutcomes) (s₁ s₂ : Bool) :
    (runRequest decodeOk req o s₁).metrics = (runRequest decodeOk req o s₂).metrics ∧
    (runRequest decodeOk req o true).exportedSpans ≠
      (runRequest decodeOk req o false).exportedSpans := by
  constructor
  · rfl
  · obtain ⟨i, s, p⟩ := o
    cases decodeOk <;> cases i <;> cases s <;> cases p <;>
      rcases h : validateRequest req with _ | verr <;>
        simp [runRequest, CreateOrderHandler, h, processOrder, checkInventory,
          processPayment, reserveInventory]

/-- C8: span status only moves forward — in every execution of
`CreateOrderHandler` (including its nested operations), no span whose
status has been set to Error has its status set to Ok afterwards. -/
theorem span_status_forward_only (decodeOk : Bool) (req : CreateOrderRequest)
    (o : SimOutcomes) :
    noOkAfterError (CreateOrderHandler decodeOk req o) = true := by
  obtain ⟨i, s, p⟩ := o
  cases decodeOk <;> cases i <;> cases s <;> cases p <;>
    rcases h : validateRequest req with _ | verr <;>
      simp [CreateOrderHandler, h, processOrder, checkInventory, processPayment,
        reserveInventory, noOkAfterError, setsOkOn]

/-- C9: `validateRequest` returns nil iff `UserID` and `ProductID` are
non-empty, `Quantity > 0` and `Amount > 0`; every decoded request failing
one of these gets HTTP status 400 and `processOrder` is never invoked. -/
theorem validate_request_gates_processing (req : CreateOrderRequest)
    (o : SimOutcomes) :
    (validateRequest req = none ↔
      req.UserID ≠ "" ∧ req.ProductID ≠ "" ∧ 0 < req.Quantity ∧ 0 < req.Amount) ∧
    (validateRequest req ≠ none →
      httpStatus (CreateOrderHandler true req o) = some 400 ∧
      Event.callProcessOrder ∉ CreateOrderHandler true req o) := by
  constructor
  · simp only [validateRequest]
    split_ifs with h1 h2 h3 h4 <;> simp_all
  · intro hne
    rcases h : validateRequest req with _ | verr
    · exact absurd h hne
    · constructor
      · simp [CreateOrderHandler, h, httpStatus]
      · simp [CreateOrderHandler, h]

/-- C9 witness: the request with empty `UserID` (and otherwise valid
fields) is rejected with 400 and `processOrder` is not called. -/
theorem validate_request_gates_processing_witness :
    httpStatus (CreateOrderHandler true ⟨"", "prod-456", 2, 99⟩
        ⟨false, false, false⟩) = some 400 ∧
    Event.callProcessOrder ∉
      CreateOrderHandler true ⟨"", "prod-456", 2, 99⟩ ⟨false, false, false⟩ :=
  (validate_request_gates_processing ⟨"", "prod-456", 2, 99⟩
      ⟨false, false, false⟩).2 (by simp [validateRequest])

/-- C10: every execution of `CreateOrderHandler` increments exactly one
outcome metric — `OrderCounter` with `status="success"` exactly once iff
it writes HTTP 201, and otherwise `ErrorCounter` exactly once with exactly
one `error.type` attribute drawn from
{invalid_request, validation_error, processing_error}; never both. -/
theorem one_outcome_metric_per_request (decodeOk : Bool)
    (req : CreateOrderRequest) (o : SimOutcomes) :
    (httpStatus (CreateOrderHandler decodeOk req o) = some 201 ↔
      ((CreateOrderHandler decodeOk req o).filter isOrderSuccessInc).length = 1) ∧
    (httpStatus (CreateOrderHandler decodeOk req o) = some 201 →
      ((CreateOrderHandler decodeOk req o).filter isErrorInc).length = 0) ∧
    (httpStatus (CreateOrderHandler decodeOk req o) ≠ some 201 →
      ((CreateOrderHandler decodeOk req o).filter isOrderSuccessInc).length = 0 ∧
      ∃ t, errorTypes (CreateOrderHandler decodeOk req o) = [t] ∧
        t ∈ (["invalid_request", "validation_error", "processing_error"] :
          List String)) := by
  obtain ⟨i, s, p⟩ := o
  cases decodeOk <;> cases i <;> cases s <;> cases p <;>
    rcases h : validateRequest req with _ | verr <;>
      simp [CreateOrderHandler, h, processOrder, checkInventory, processPayment,
        reserveInventory, httpStatus, isOrderSuccessInc, isErrorInc, errorTypes,
        List.lookup]

/-- C10 witness: on the fully successful run no error increment occurs, and
on a decode failure no success increment occurs. -/
theorem one_outcome_metric_per_request_witness :
    ((CreateOrderHandler true ⟨"user-123", "prod-456", 2, 99⟩
        ⟨false, false, false⟩).filter isErrorInc).length = 0 ∧
    ((CreateOrderHandler false ⟨"user-123", "prod-456", 2, 99⟩
        ⟨false, false, false⟩).filter isOrderSuccessInc).length = 0 :=
  ⟨(one_outcome_metric_per_request true ⟨"user-123", "prod-456", 2, 99⟩
      ⟨false, false, false⟩).2.1
      (by
        have hv : validateRequest ⟨"user-123", "prod-456", 2, 99⟩ = none := by rfl
        simp [CreateOrderHandler, hv, processOrder, checkInventory,
          processPayment, reserveInventory, httpStatus]),
   ((one_outcome_metric_per_request false ⟨"user-123", "prod-456", 2, 99⟩
      ⟨false, false, false⟩).2.2
      (by simp [CreateOrderHandler, httpStatus])).1⟩

end ObsDemo
